import Mathlib

/-!
Shallow embedding of the two core subsystems of the repository:

* the protected memory region manager (`src/Memory.cpp`, both the Windows
  and the POSIX backend), and
* the process execution engine (`src/SystemError.cpp`, `Execute`/`Wait`
  on both backends),

together with the self-process singleton accessor
(`src/unnamed/part_001`, `process::get_self`).

OS primitives (`mmap`, `VirtualAlloc`, `munmap`, `waitpid`, ...) are
modelled as oracle parameters: pure functions supplied to the embedded
code, so that every definition is executable and every OS reply can be
chosen concretely in witnesses and counterexamples.
-/

/-! ## Memory region manager: data model (src/Memory.cpp) -/

/-- A memory block: base address plus size in bytes (`MemoryBlock` in the
source; address 0 / size 0 is the default-constructed empty block). -/
structure MemoryBlock where
  address : Nat
  size : Nat
deriving DecidableEq

/-- The default-constructed `MemoryBlock()`: no address, no size. -/
def MemoryBlock.empty : MemoryBlock := ⟨0, 0⟩

/-- The portable permission request: the `MF_READ`/`MF_WRITE`/`MF_EXEC`
bitmask of `Memory::ProtectionFlags`, modelled as its three bits. -/
structure MemProtFlags where
  read : Bool
  write : Bool
  mayExec : Bool
deriving DecidableEq

/-- Boolean inclusion of permission sets: every permission requested in
`a` is also present in `b`. -/
def MemProtFlags.isSubsetOf (a b : MemProtFlags) : Bool :=
  (!a.read || b.read) && (!a.write || b.write) && (!a.mayExec || b.mayExec)

/-- The Windows page-protection constants that
`getWindowsProtectionFlags` can produce (src/Memory.cpp lines 31-55). -/
inductive WinPageProt where
  | pageReadonly
  | pageReadWrite
  | pageExecuteRead
  | pageExecuteReadWrite
  | pageExecute
deriving DecidableEq

/-- The effective read/write/execute rights granted by each Windows
page-protection constant. -/
def WinPageProt.perms : WinPageProt → MemProtFlags
  | .pageReadonly => ⟨true, false, false⟩
  | .pageReadWrite => ⟨true, true, false⟩
  | .pageExecuteRead => ⟨true, false, true⟩
  | .pageExecuteReadWrite => ⟨true, true, true⟩
  | .pageExecute => ⟨false, false, true⟩

/-- `getWindowsProtectionFlags` (src/Memory.cpp lines 31-55): the switch
over the requested flag combination.  `none` models the `default:`
branch, which calls `FatalError::Die` ("Illegal memory protection flag
specified!"); the combinations write+exec and the empty set reach it.
Note the comment in the source: `PAGE_WRITE` is not supported by
`VirtualProtect`, so a write-only request maps to `PAGE_READWRITE`. -/
def getWindowsProtectionFlags : MemProtFlags → Option WinPageProt
  | ⟨true, false, false⟩ => some .pageReadonly
  | ⟨false, true, false⟩ => some .pageReadWrite
  | ⟨true, true, false⟩ => some .pageReadWrite
  | ⟨true, false, true⟩ => some .pageExecuteRead
  | ⟨true, true, true⟩ => some .pageExecuteReadWrite
  | ⟨false, false, true⟩ => some .pageExecute
  | _ => none

/-- A POSIX `PROT_*` bit set (`PROT_READ`/`PROT_WRITE`/`PROT_EXEC`). -/
structure PosixProt where
  r : Bool
  w : Bool
  x : Bool
deriving DecidableEq

/-- The effective rights of a POSIX protection bit set (the bits are the
rights themselves). -/
def PosixProt.perms (p : PosixProt) : MemProtFlags := ⟨p.r, p.w, p.x⟩

/-- `getPosixProtectionFlags` (src/Memory.cpp lines 277-309).  `freebsd`
selects the `__FreeBSD__` special case that maps an exec-only request to
`PROT_READ | PROT_EXEC`.  `none` models the `default:` branch calling
`FatalError::Die`. -/
def getPosixProtectionFlags (freebsd : Bool) : MemProtFlags → Option PosixProt
  | ⟨true, false, false⟩ => some ⟨true, false, false⟩
  | ⟨false, true, false⟩ => some ⟨false, true, false⟩
  | ⟨true, true, false⟩ => some ⟨true, true, false⟩
  | ⟨true, false, true⟩ => some ⟨true, false, true⟩
  | ⟨true, true, true⟩ => some ⟨true, true, true⟩
  | ⟨false, false, true⟩ =>
      some (if freebsd then ⟨true, false, true⟩ else ⟨false, false, true⟩)
  | _ => none

/-- An error-code value: success, or an OS error number from the system
category (the `error_code` pair of `SystemError.hpp`, restricted to what
the memory manager produces). -/
inductive ECode where
  | success
  | osError (e : Nat)
deriving DecidableEq

/-- One OS mapping request issued by an allocator: the start hint and the
length that were passed to `mmap`/`VirtualAlloc`. -/
structure MapCall where
  start : Nat
  len : Nat
deriving DecidableEq

/-- The outcome of `allocateMappedMemory`: the returned block, the error
code stored through `EC`, the OS mapping requests that were issued (in
order), and whether the instruction cache was invalidated. -/
structure AllocResult where
  block : MemoryBlock
  ec : ECode
  calls : List MapCall
  icache : Bool
deriving DecidableEq

/-- The page-aligned start hint computed from a `NearBlock`
(src/Memory.cpp lines 346-349): base+size, rounded up to the next
page/granularity boundary when nonzero and misaligned. -/
def alignedStartHint (granularity : Nat) (near : Option MemoryBlock) : Nat :=
  match near with
  | none => 0
  | some nb =>
    let s := nb.address + nb.size
    if s ≠ 0 ∧ s % granularity ≠ 0 then s + (granularity - s % granularity) else s

/-- `Memory::allocateMappedMemory`, Unix backend (src/Memory.cpp lines
316-369).  `mmap start len` is the OS oracle: `some a` means the mapping
succeeded at address `a`, `none` means `MAP_FAILED` (with `errno` as the
error number).  Returns `none` when `getPosixProtectionFlags` reaches its
fatal `default:` branch.  On a failed hinted attempt the source recurses
with `NearBlock = 0`; since that recursive call cannot recurse again, it
is unfolded in place here (the no-hint start is 0, and the zero-size
check, the flag translation and the page rounding rerun with unchanged
outcomes). -/
def unixAllocateMappedMemory (pageSize : Nat) (mmap : Nat → Nat → Option Nat)
    (errno : Nat) (freebsd : Bool) (numBytes : Nat) (near : Option MemoryBlock)
    (flags : MemProtFlags) : Option AllocResult :=
  if numBytes = 0 then some ⟨MemoryBlock.empty, ECode.success, [], false⟩ else
  match getPosixProtectionFlags freebsd flags with
  | none => none
  | some _prot =>
    let numPages := (numBytes + pageSize - 1) / pageSize
    let len := pageSize * numPages
    let start := alignedStartHint pageSize near
    match mmap start len with
    | some addr =>
        some ⟨⟨addr, numPages * pageSize⟩, ECode.success, [⟨start, len⟩],
          flags.mayExec⟩
    | none =>
      match near with
      | some _ =>
        -- retry once with no hint (`return allocateMappedMemory(NumBytes, 0,
        -- PFlags, EC);` in the source)
        match mmap 0 len with
        | some addr =>
            some ⟨⟨addr, numPages * pageSize⟩, ECode.success,
              [⟨start, len⟩, ⟨0, len⟩], flags.mayExec⟩
        | none =>
            some ⟨MemoryBlock.empty, ECode.osError errno,
              [⟨start, len⟩, ⟨0, len⟩], false⟩
      | none => some ⟨MemoryBlock.empty, ECode.osError errno, [⟨start, len⟩], false⟩

/-- `Memory::allocateMappedMemory`, Windows backend (src/Memory.cpp lines
76-121).  Identical control flow with the allocation granularity in place
of the page size and `VirtualAlloc` as the oracle; the protection
constant is computed by `getWindowsProtectionFlags` before the first
attempt, and a failed hinted attempt retries once with no hint (the
source's recursive call with `NearBlock = NULL`, unfolded in place as in
the Unix model). -/
def winAllocateMappedMemory (granularity : Nat)
    (virtualAlloc : Nat → Nat → WinPageProt → Option Nat) (lastError : Nat)
    (numBytes : Nat) (near : Option MemoryBlock) (flags : MemProtFlags) :
    Option AllocResult :=
  if numBytes = 0 then some ⟨MemoryBlock.empty, ECode.success, [], false⟩ else
  match getWindowsProtectionFlags flags with
  | none => none
  | some prot =>
    let numBlocks := (numBytes + granularity - 1) / granularity
    let len := numBlocks * granularity
    let start := alignedStartHint granularity near
    match virtualAlloc start len prot with
    | some addr =>
        some ⟨⟨addr, numBlocks * granularity⟩, ECode.success, [⟨start, len⟩],
          flags.mayExec⟩
    | none =>
      match near with
      | some _ =>
        match virtualAlloc 0 len prot with
        | some addr =>
            some ⟨⟨addr, numBlocks * granularity⟩, ECode.success,
              [⟨start, len⟩, ⟨0, len⟩], flags.mayExec⟩
        | none =>
            some ⟨MemoryBlock.empty, ECode.osError lastError,
              [⟨start, len⟩, ⟨0, len⟩], false⟩
      | none => some ⟨MemoryBlock.empty, ECode.osError lastError, [⟨start, len⟩], false⟩

/-- The outcome of `releaseMappedMemory`: the error code, the block as
left in the caller's variable (the source takes `MemoryBlock &M` and
resets it on success), and whether an OS call was made. -/
structure ReleaseResult where
  ec : ECode
  block : MemoryBlock
  osCalled : Bool
deriving DecidableEq

/-- `Memory::releaseMappedMemory`, Unix backend (src/Memory.cpp lines
371-383).  Empty blocks short-circuit to success with no OS call; on
`munmap` success the caller's block is reset to address 0 / size 0; on
failure it is left untouched. -/
def unixReleaseMappedMemory (munmap : Nat → Nat → Bool) (errno : Nat)
    (M : MemoryBlock) : ReleaseResult :=
  if M.address = 0 ∨ M.size = 0 then ⟨ECode.success, M, false⟩
  else if munmap M.address M.size then ⟨ECode.success, ⟨0, 0⟩, true⟩
  else ⟨ECode.osError errno, M, true⟩

/-- `Memory::releaseMappedMemory`, Windows backend (src/Memory.cpp lines
123-134): same shape with `VirtualFree(M.Address, 0, MEM_RELEASE)`. -/
def winReleaseMappedMemory (virtualFree : Nat → Bool) (lastError : Nat)
    (M : MemoryBlock) : ReleaseResult :=
  if M.address = 0 ∨ M.size = 0 then ⟨ECode.success, M, false⟩
  else if virtualFree M.address then ⟨ECode.success, ⟨0, 0⟩, true⟩
  else ⟨ECode.osError lastError, M, true⟩

/-- The outcome of `protectMappedMemory`: the error code, the protection
value passed to the OS (`none` when no OS call was made), and whether the
instruction cache was invalidated. -/
structure ProtectResult (π : Type) where
  ec : ECode
  protPassed : Option π
  icache : Bool

/-- The POSIX `EINVAL` error number. -/
def EINVAL : Nat := 22

/-- `Memory::protectMappedMemory`, Unix backend (src/Memory.cpp lines
385-403).  Empty blocks short-circuit to success; an all-empty flag set
is rejected with `EINVAL`; otherwise `mprotect` runs, and the instruction
cache is invalidated when the new set includes exec. `none` models the
fatal branch of the flag translation. -/
def unixProtectMappedMemory (mprotect : Nat → Nat → PosixProt → Bool)
    (errno : Nat) (freebsd : Bool) (M : MemoryBlock) (flags : MemProtFlags) :
    Option (ProtectResult PosixProt) :=
  if M.address = 0 ∨ M.size = 0 then some ⟨ECode.success, none, false⟩
  else if flags = ⟨false, false, false⟩ then some ⟨ECode.osError EINVAL, none, false⟩
  else
    match getPosixProtectionFlags freebsd flags with
    | none => none
    | some prot =>
      if mprotect M.address M.size prot then
        some ⟨ECode.success, some prot, flags.mayExec⟩
      else some ⟨ECode.osError errno, some prot, false⟩

/-- `Memory::protectMappedMemory`, Windows backend (src/Memory.cpp lines
136-151): empty blocks short-circuit to success, then `VirtualProtect`
with the translated constant, then instruction-cache invalidation when
exec was requested. -/
def winProtectMappedMemory (virtualProtect : Nat → Nat → WinPageProt → Bool)
    (lastError : Nat) (M : MemoryBlock) (flags : MemProtFlags) :
    Option (ProtectResult WinPageProt) :=
  if M.address = 0 ∨ M.size = 0 then some ⟨ECode.success, none, false⟩
  else
    match getWindowsProtectionFlags flags with
    | none => none
    | some prot =>
      if virtualProtect M.address M.size prot then
        some ⟨ECode.success, some prot, flags.mayExec⟩
      else some ⟨ECode.osError lastError, some prot, false⟩

/-! ## Process execution engine: data model (src/SystemError.cpp) -/

/-- The human-readable error messages the engine writes through `ErrMsg`,
abstracted to their identity (the exact strings are in the source at the
cited lines). -/
inductive PMsg where
  | programNotExecutable
  | cantRedirect
  | couldNotExecuteProgram
  | unableToSetMemoryLimit
  | posixSpawnFailed (err : Nat)
  | couldNotFork
  | strError (e : Nat)
  | couldNotBeExecuted
  | signalName (sig : Nat) (coreDumped : Bool)
  | childTimedOut
  | childTimedOutWouldNotDie
  | errorWaitingForChild
  | failedToTerminate
  | failedGettingStatus
deriving DecidableEq

/-- The POSIX `ENOENT` error number ("No such file or directory"). -/
def ENOENT : Nat := 2

/-- The redirection triple passed to `Execute`: one optional path per
standard stream.  `none` = inherit the caller's stream;
`some ""` = present-but-empty (the null device); `some path` = that
file.  The top-level `redirects == NULL` case is modelled by callers
passing no triple at all. -/
structure RedirectTriple where
  rIn : Option String
  rOut : Option String
  rErr : Option String
deriving DecidableEq

/-- Empty redirect paths resolve to the platform null device on Unix
(src/SystemError.cpp lines 1161-1165 and 1191-1195). -/
def resolveUnixPath (p : String) : String :=
  if p = "" then "/dev/null" else p

/-- Empty redirect paths resolve to `NUL` on Windows
(src/SystemError.cpp lines 708-712). -/
def resolveWinPath (p : String) : String :=
  if p = "" then "NUL" else p

/-- One stream-binding step performed while setting up a child's standard
descriptors: an independent open of a path installed at `fd`, a
duplication of an already-bound descriptor (`dup2` /
`DuplicateHandle`), or (Windows only) duplicating the caller's own
handle to inherit it. -/
inductive FdAction where
  | openAt (fd : Nat) (path : String)
  | dupTo (src fd : Nat)
  | inheritDup (fd : Nat)
deriving DecidableEq

/-- The file actions requested on the posix_spawn fast path when a
redirect triple is present (src/SystemError.cpp lines 1254-1281):
`addopen` for stdin and stdout when present, then either
`adddup2(1, 2)` when stdout and stderr are both present with equal
values, or an independent `addopen` for stderr. -/
def psFileActions (r : RedirectTriple) : List FdAction :=
  (match r.rIn with
   | none => []
   | some p => [FdAction.openAt 0 (resolveUnixPath p)]) ++
  (match r.rOut with
   | none => []
   | some p => [FdAction.openAt 1 (resolveUnixPath p)]) ++
  (match r.rOut, r.rErr with
   | some p1, some p2 =>
     if p1 = p2 then [FdAction.dupTo 1 2]
     else [FdAction.openAt 2 (resolveUnixPath p2)]
   | _, some p2 => [FdAction.openAt 2 (resolveUnixPath p2)]
   | _, none => [])

/-- The stream bindings performed in the child on the fork/exec fallback
path when a redirect triple is present (src/SystemError.cpp lines
1320-1339): `RedirectIO` (open + `dup2` + close) for stdin and stdout
when present, then either `dup2(1, 2)` when stdout and stderr are both
present with equal values, or an independent `RedirectIO` for stderr. -/
def forkChildActions (r : RedirectTriple) : List FdAction :=
  (match r.rIn with
   | none => []
   | some p => [FdAction.openAt 0 (resolveUnixPath p)]) ++
  (match r.rOut with
   | none => []
   | some p => [FdAction.openAt 1 (resolveUnixPath p)]) ++
  (match r.rOut, r.rErr with
   | some p1, some p2 =>
     if p1 = p2 then [FdAction.dupTo 1 2]
     else [FdAction.openAt 2 (resolveUnixPath p2)]
   | _, some p2 => [FdAction.openAt 2 (resolveUnixPath p2)]
   | _, none => [])

/-- The handle bindings built for `STARTF_USESTDHANDLES` on the Windows
backend when a redirect triple is present (src/SystemError.cpp lines
883-914): `RedirectIO` duplicates the caller's own handle for an absent
entry and opens the file otherwise; when stdout and stderr are both
present with equal values, stderr is `DuplicateHandle`d from the handle
already open for stdout. -/
def winHandleActions (r : RedirectTriple) : List FdAction :=
  [match r.rIn with
   | none => FdAction.inheritDup 0
   | some p => FdAction.openAt 0 (resolveWinPath p)] ++
  [match r.rOut with
   | none => FdAction.inheritDup 1
   | some p => FdAction.openAt 1 (resolveWinPath p)] ++
  (match r.rOut, r.rErr with
   | some p1, some p2 =>
     if p1 = p2 then [FdAction.dupTo 1 2]
     else [FdAction.openAt 2 (resolveWinPath p2)]
   | _, some p2 => [FdAction.openAt 2 (resolveWinPath p2)]
   | _, none => [FdAction.inheritDup 2])

/-- Whether a binding step opens a path independently at descriptor 2. -/
def FdHasIndependentStderrOpen (a : FdAction) : Bool :=
  match a with
  | FdAction.openAt 2 _ => true
  | _ => false

/-- What one call to `Execute` did: its boolean return value, the error
message (if any), whether the OS spawn primitive (`posix_spawn`, `fork`,
`CreateProcess`) was invoked, and whether an OS child process came into
existence. -/
structure ExecOutcome where
  ok : Bool
  msg : Option PMsg
  osSpawnAttempted : Bool
  processCreated : Bool
deriving DecidableEq

/-- `Execute`, Windows backend (src/SystemError.cpp lines 793-979).
The very first statement checks `sys::fs::can_execute(Program)` and
fails with "program not executable" before any handle or process is
created.  `redirectOk` abstracts the three `RedirectIO` handle openings,
`createOk` the `CreateProcessA` call, and `jobOk` the job-object
memory-ceiling setup (on whose failure the already-created child is
terminated and `Execute` returns false). -/
def winExecute (canExec : Bool) (redirectOk : Bool) (createOk : Bool)
    (memoryLimit : Nat) (jobOk : Bool) : ExecOutcome :=
  if !canExec then ⟨false, some PMsg.programNotExecutable, false, false⟩
  else if !redirectOk then ⟨false, some PMsg.cantRedirect, false, false⟩
  else if !createOk then ⟨false, some PMsg.couldNotExecuteProgram, true, false⟩
  else if memoryLimit ≠ 0 && !jobOk then
    -- the child was created, then terminated because the job setup failed
    ⟨false, some PMsg.unableToSetMemoryLimit, true, true⟩
  else ⟨true, none, true, true⟩

/-- `Execute`, Unix backend, posix_spawn fast path (src/SystemError.cpp
lines 1244-1307, taken when `HAVE_POSIX_SPAWN` and `memoryLimit == 0`).
The function performs no executability check of its own: `canExec` is a
property of the program file that the code never consults.
`redirectSetupOk` abstracts the `posix_spawn_file_actions` setup;
`spawnErr` is the return value of `posix_spawn` (0 = success, in which
case the OS has created the child). -/
def unixExecutePosixSpawn (canExec : Bool) (redirectSetupOk : Bool)
    (spawnErr : Nat) : ExecOutcome :=
  if !redirectSetupOk then ⟨false, some PMsg.cantRedirect, false, false⟩
  else if spawnErr ≠ 0 then ⟨false, some (PMsg.posixSpawnFailed spawnErr), true, false⟩
  else ⟨true, none, true, true⟩

/-- `Execute`, Unix backend, fork/exec fallback path (src/SystemError.cpp
lines 1310-1373).  No executability check is performed: `canExec` is
never consulted.  `forkResult` is the pid returned by `fork` (`none` =
fork failed).  On a successful fork the parent stores the pid and returns
true immediately — an OS child process exists even when the program is
not executable (in that case the child's `execve` fails and the child
`_exit`s with the reserved code 127 for `ENOENT` / 126 otherwise, which
is only observed later, at `Wait`). -/
def unixExecuteFork (canExec : Bool) (forkResult : Option Nat) : ExecOutcome :=
  match forkResult with
  | none => ⟨false, some PMsg.couldNotFork, true, false⟩
  | some _pid => ⟨true, none, true, true⟩

/-! ## Wait: exit-status classification and the wait loop -/

/-- How the OS reports a reaped child's termination (`WIFEXITED` /
`WIFSIGNALED` with `WCOREDUMP`). -/
inductive WStatus where
  | exited (code : Nat)
  | signaled (sig : Nat) (core : Bool)
deriving DecidableEq

/-- The value/message pair `Wait` produces from a reaped status on the
Unix backend (src/SystemError.cpp lines 1424-1461).  For a normal exit:
under `HAVE_POSIX_SPAWN` (`havePS`), an exit code of 127 is re-checked
against the file system — if the existence query succeeds
(`existsCheckOk`) and the program exists (`progExists`), the code is
rewritten to 126.  A final 127 yields -1 with `StrError(ENOENT)`; a
final 126 yields -1 with "Program could not be executed"; any other code
is returned as-is.  A signal death yields -2 with `strsignal` and a
" (core dumped)" annotation when `WCOREDUMP` reports one. -/
def classifyExitCode (havePS existsCheckOk progExists : Bool) (code : Nat) :
    Int × Option PMsg :=
  let result := if havePS && code = 127 && existsCheckOk && progExists then 126
    else code
  if result = 127 then (-1, some (PMsg.strError ENOENT))
  else if result = 126 then (-1, some PMsg.couldNotBeExecuted)
  else ((result : Int), none)

/-- Classification of a full `waitpid` status on the Unix backend
(src/SystemError.cpp lines 1426-1460). -/
def classifyStatus (havePS existsCheckOk progExists : Bool) :
    WStatus → Int × Option PMsg
  | WStatus.exited code => classifyExitCode havePS existsCheckOk progExists code
  | WStatus.signaled sig core => (-2, some (PMsg.signalName sig core))

/-- One return of the blocking `waitpid` call inside the Unix `Wait`
loop: the child was reaped with a status, or the call failed with
`EINTR` (recording, for specification purposes only, whether the
interrupting signal was the engine's own `SIGALRM` — the code itself
cannot and does not inspect this), or it failed with some other errno. -/
inductive WaitpidEv where
  | child (st : WStatus)
  | eintr (fromAlarm : Bool)
  | otherError
deriving DecidableEq

/-- What one call to the Unix `Wait` produced: the returned int, the
error message, whether `kill(child, SIGKILL)` was sent, and whether the
final blocking `wait` reap was performed. -/
structure UnixWaitResult where
  ret : Int
  msg : Option PMsg
  sigkillSent : Bool
  blockingReapDone : Bool
deriving DecidableEq

/-- `Wait`, Unix backend (src/SystemError.cpp lines 1375-1461), driven by
the successive outcomes of its `waitpid` call.  The loop
`while (waitpid(pid, &status, 0) != child)` classifies a reaped status;
on `EINTR` with a nonzero `secondsToWait` it takes the timeout path —
`kill(child, SIGKILL)`, cancel the alarm, one final blocking
`wait(&status)` (whose success selects between the two timeout
messages), return -2; on `EINTR` with no timeout armed neither branch
fires and the loop retries; on any other errno it returns -1.  `none`
models a still-blocked wait (the event list ran out). -/
def unixWait (secondsToWait : Nat) (havePS existsCheckOk progExists : Bool)
    (reapOk : Bool) : List WaitpidEv → Option UnixWaitResult
  | [] => none
  | WaitpidEv.child st :: _ =>
    let rm := classifyStatus havePS existsCheckOk progExists st
    some ⟨rm.1, rm.2, false, false⟩
  | WaitpidEv.eintr _ :: rest =>
    if secondsToWait ≠ 0 then
      some ⟨-2,
        some (if reapOk then PMsg.childTimedOut else PMsg.childTimedOutWouldNotDie),
        true, true⟩
    else unixWait secondsToWait havePS existsCheckOk progExists reapOk rest
  | WaitpidEv.otherError :: _ =>
    some ⟨-1, some PMsg.errorWaitingForChild, false, false⟩

/-- Interpret a 32-bit unsigned value as the C `int` it casts to. -/
def int32OfUInt32 (n : Nat) : Int :=
  if n < 2 ^ 31 then (n : Int) else (n : Int) - 2 ^ 32

/-- The exit-status decoding at the end of the Windows `WaitAux`
(src/SystemError.cpp lines 1010-1020): 0 stays 0; an NTSTATUS
warning/error pattern is returned as the (negative) int cast; a status
with a nonzero low byte is masked to 31 bits; anything else becomes 1. -/
def winDecodeExitStatus (status : Nat) : Int :=
  if status = 0 then 0
  else if status &&& 0xBFFF0000 = 0x80000000 then int32OfUInt32 status
  else if status &&& 0xFF ≠ 0 then ((status &&& 0x7FFFFFFF : Nat) : Int)
  else 1

/-- What one call to the Windows `WaitAux` produced. -/
structure WinWaitResult where
  ret : Int
  msg : Option PMsg
  terminateCalled : Bool
  blockingReapDone : Bool
deriving DecidableEq

/-- `WaitAux`, Windows backend (src/SystemError.cpp lines 981-1021).
`timedOut` is whether `WaitForSingleObject` returned `WAIT_TIMEOUT`
(only possible when `secondsToWait > 0`).  On timeout the child is
killed with `TerminateProcess(hProcess, 1)`; if that fails, -2 is
returned at once; otherwise a final `WaitForSingleObject(hProcess,
INFINITE)` reaps, and `GetExitCodeProcess` then observes the forced exit
code 1 (the value passed to `TerminateProcess`), which flows through the
normal decoding.  Without a timeout, `exitStatus` is whatever code the
child exited with.  A failing `GetExitCodeProcess` yields -2. -/
def winWaitAux (timedOut terminateOk getExitOk : Bool) (exitStatus : Nat) :
    WinWaitResult :=
  if timedOut then
    if !terminateOk then ⟨-2, some PMsg.failedToTerminate, true, false⟩
    else if !getExitOk then ⟨-2, some PMsg.failedGettingStatus, true, true⟩
    else ⟨winDecodeExitStatus 1, none, true, true⟩
  else if !getExitOk then ⟨-2, some PMsg.failedGettingStatus, false, true⟩
  else ⟨winDecodeExitStatus exitStatus, none, false, true⟩

/-! ## Self-process singleton (src/unnamed/part_001) -/

/-- The process-wide self-process descriptor; for this development it is
identified by the page size it reports. -/
structure SelfProcess where
  pageSize : Nat
deriving DecidableEq

/-- One call to `process::get_self` (src/unnamed/part_001 lines 27-33).
The accessor is `static self_process *SP = new self_process();` — a
C++11 function-local static, whose initialization the language runs
exactly once, fully, before any caller proceeds; racing first calls are
therefore serialized, and each call is one atomic step on the cell
state.  Returns the observed reference, the new cell state, and whether
this call ran the constructor. -/
def getSelf (osPageSize : Nat) :
    Option SelfProcess → SelfProcess × Option SelfProcess × Bool
  | none => (⟨osPageSize⟩, some ⟨osPageSize⟩, true)
  | some sp => (sp, some sp, false)

/-- A serialized trace of `n` `get_self` calls (any interleaving of
racing threads, given that each call is atomic): the list of references
the callers observed, the final cell state, and how many calls ran the
constructor.  No transition ever destroys the cell: the pointer is
deliberately leaked and `self_process::~self_process` contains
`assert(false)` (src/unnamed/part_001 lines 43-49). -/
def runGetSelf (osPageSize : Nat) :
    Nat → Option SelfProcess → List SelfProcess × Option SelfProcess × Nat
  | 0, s => ([], s, 0)
  | n + 1, s =>
    let rsc := getSelf osPageSize s
    let rest := runGetSelf osPageSize n rsc.2.1
    (rsc.1 :: rest.1, rest.2.1, (if rsc.2.2 then 1 else 0) + rest.2.2)

/-! ## Helper lemmas -/

/-- Once the singleton cell is populated, any further trace of calls
observes that same instance, constructs nothing, and leaves the cell
populated. -/
theorem runGetSelf_some (osPageSize : Nat) (n : Nat) (sp : SelfProcess) :
    runGetSelf osPageSize n (some sp) = (List.replicate n sp, some sp, 0) := by
  induction n with
  | zero => rfl
  | succ n ih => simp [runGetSelf, getSelf, ih, List.replicate]

/-! ## Claim theorems: memory region manager -/

/-- Claim C5 (confirmed): a write-only request (writable but not readable
or executable) is promoted to `PAGE_READWRITE` on the Windows backend —
the one that cannot express write-only natively — so the effective
permissions are at least read+write; and more generally neither backend's
translation ever grants less than the requested permission set (illegal
combinations are rejected fatally, not downgraded). -/
theorem C5_write_only_promoted :
    getWindowsProtectionFlags ⟨false, true, false⟩ =
      some WinPageProt.pageReadWrite ∧
    MemProtFlags.isSubsetOf ⟨true, true, false⟩
      (WinPageProt.perms WinPageProt.pageReadWrite) = true ∧
    (∀ f p, getWindowsProtectionFlags f = some p →
       f.isSubsetOf p.perms = true) ∧
    (∀ fb f p, getPosixProtectionFlags fb f = some p →
       f.isSubsetOf p.perms = true) := by
  refine ⟨rfl, rfl, ?_, ?_⟩
  · intro f p h
    rcases f with ⟨r, w, x⟩
    cases r <;> cases w <;> cases x <;>
      simp only [getWindowsProtectionFlags, Option.some.injEq,
        reduceCtorEq] at h <;>
      first
      | exact absurd h (fun hf => hf)
      | (subst h; decide)
  · intro fb f p h
    rcases f with ⟨r, w, x⟩
    cases fb <;> cases r <;> cases w <;> cases x <;>
      simp only [getPosixProtectionFlags, Option.some.injEq, if_true, if_false,
        Bool.false_eq_true, reduceIte, reduceCtorEq] at h <;>
      first
      | exact absurd h (fun hf => hf)
      | (subst h; decide)

/-- Witness for C5: the write-only request, pushed through both
translations, yields at-least-the-requested permissions. -/
theorem C5_witness :
    MemProtFlags.isSubsetOf ⟨false, true, false⟩
      (WinPageProt.perms WinPageProt.pageReadWrite) = true ∧
    MemProtFlags.isSubsetOf ⟨false, true, false⟩
      (PosixProt.perms ⟨false, true, false⟩) = true :=
  ⟨C5_write_only_promoted.2.2.1 ⟨false, true, false⟩
      WinPageProt.pageReadWrite rfl,
   C5_write_only_promoted.2.2.2 false ⟨false, true, false⟩
      ⟨false, true, false⟩ rfl⟩

/-- Claim C6 (confirmed): on both backends, when allocation with a
placement hint fails, the engine has already retried exactly once with no
hint (at most two OS mapping attempts in total), and the failing result —
error code and (empty) block — is the same as that of the hint-free
allocation; hence a hint never turns a satisfiable allocation into a
failure. -/
theorem C6_hint_never_hurts :
    (∀ ps mmap errno fb n nb flags r,
       unixAllocateMappedMemory ps mmap errno fb n (some nb) flags = some r →
       r.ec ≠ ECode.success →
       ∃ r', unixAllocateMappedMemory ps mmap errno fb n none flags = some r' ∧
         r'.ec = r.ec ∧ r'.block = r.block ∧ r.calls.length ≤ 2) ∧
    (∀ g va le n nb flags r,
       winAllocateMappedMemory g va le n (some nb) flags = some r →
       r.ec ≠ ECode.success →
       ∃ r', winAllocateMappedMemory g va le n none flags = some r' ∧
         r'.ec = r.ec ∧ r'.block = r.block ∧ r.calls.length ≤ 2) := by
  constructor
  · intro ps mmap errno fb n nb flags r h hec
    by_cases hn : n = 0
    · subst hn
      simp only [unixAllocateMappedMemory, reduceIte, Option.some.injEq] at h
      subst h
      exact absurd rfl hec
    cases hp : getPosixProtectionFlags fb flags with
    | none =>
      simp only [unixAllocateMappedMemory, if_neg hn, hp] at h
      exact Option.noConfusion h
    | some prot =>
      simp only [unixAllocateMappedMemory, if_neg hn, hp] at h ⊢
      cases hm1 : mmap (alignedStartHint ps (some nb))
          (ps * ((n + ps - 1) / ps)) with
      | some a =>
        rw [hm1] at h
        simp only [Option.some.injEq] at h
        subst h
        exact absurd rfl hec
      | none =>
        rw [hm1] at h
        cases hm2 : mmap 0 (ps * ((n + ps - 1) / ps)) with
        | some a =>
          rw [hm2] at h
          simp only [Option.some.injEq] at h
          subst h
          exact absurd rfl hec
        | none =>
          rw [hm2] at h
          simp only [Option.some.injEq] at h
          subst h
          refine ⟨⟨MemoryBlock.empty, ECode.osError errno,
            [⟨0, ps * ((n + ps - 1) / ps)⟩], false⟩, ?_, rfl, rfl, Nat.le_refl 2⟩
          simp only [alignedStartHint]
          rw [hm2]
  · intro g va le n nb flags r h hec
    by_cases hn : n = 0
    · subst hn
      simp only [winAllocateMappedMemory, reduceIte, Option.some.injEq] at h
      subst h
      exact absurd rfl hec
    cases hp : getWindowsProtectionFlags flags with
    | none =>
      simp only [winAllocateMappedMemory, if_neg hn, hp] at h
      exact Option.noConfusion h
    | some prot =>
      simp only [winAllocateMappedMemory, if_neg hn, hp] at h ⊢
      cases hm1 : va (alignedStartHint g (some nb))
          ((n + g - 1) / g * g) prot with
      | some a =>
        rw [hm1] at h
        simp only [Option.some.injEq] at h
        subst h
        exact absurd rfl hec
      | none =>
        rw [hm1] at h
        cases hm2 : va 0 ((n + g - 1) / g * g) prot with
        | some a =>
          rw [hm2] at h
          simp only [Option.some.injEq] at h
          subst h
          exact absurd rfl hec
        | none =>
          rw [hm2] at h
          simp only [Option.some.injEq] at h
          subst h
          refine ⟨⟨MemoryBlock.empty, ECode.osError le,
            [⟨0, (n + g - 1) / g * g⟩], false⟩, ?_, rfl, rfl, Nat.le_refl 2⟩
          simp only [alignedStartHint]
          rw [hm2]

/-- Witness for C6: with an OS that refuses every mapping request, the
hinted Unix allocation fails with the same error code and empty block as
the hint-free one, after exactly two attempts. -/
theorem C6_witness :
    ∃ r', unixAllocateMappedMemory 4096 (fun _ _ => none) 12 false 100
        none ⟨true, true, false⟩ = some r' ∧
      r'.ec = ECode.osError 12 ∧ r'.block = MemoryBlock.empty ∧
      (2 : Nat) ≤ 2 := by
  have h := C6_hint_never_hurts.1 4096 (fun _ _ => none) 12 false 100
    ⟨8192, 4096⟩ ⟨true, true, false⟩
    ⟨MemoryBlock.empty, ECode.osError 12, [⟨12288, 4096⟩, ⟨0, 4096⟩], false⟩
    (by rfl) (by decide)
  obtain ⟨r', h1, h2, h3, _⟩ := h
  exact ⟨r', h1, by rw [h2], by rw [h3], Nat.le_refl 2⟩

/-- Claim C7 (confirmed): a zero-size allocation returns the empty block
with a success code and issues no OS mapping request, and protect and
release on an empty block (null address or zero size) are success no-ops
that make no OS call, on both backends. -/
theorem C7_zero_size_and_empty_noop :
    (∀ ps mmap errno fb near flags,
       unixAllocateMappedMemory ps mmap errno fb 0 near flags =
         some ⟨MemoryBlock.empty, ECode.success, [], false⟩) ∧
    (∀ g va le near flags,
       winAllocateMappedMemory g va le 0 near flags =
         some ⟨MemoryBlock.empty, ECode.success, [], false⟩) ∧
    (∀ mpr errno fb M flags, M.address = 0 ∨ M.size = 0 →
       unixProtectMappedMemory mpr errno fb M flags =
         some ⟨ECode.success, none, false⟩) ∧
    (∀ vp le M flags, M.address = 0 ∨ M.size = 0 →
       winProtectMappedMemory vp le M flags =
         some ⟨ECode.success, none, false⟩) ∧
    (∀ mun errno M, M.address = 0 ∨ M.size = 0 →
       unixReleaseMappedMemory mun errno M = ⟨ECode.success, M, false⟩) ∧
    (∀ vf le M, M.address = 0 ∨ M.size = 0 →
       winReleaseMappedMemory vf le M = ⟨ECode.success, M, false⟩) := by
  refine ⟨?_, ?_, ?_, ?_, ?_, ?_⟩
  · intro ps mmap errno fb near flags
    simp [unixAllocateMappedMemory]
  · intro g va le near flags
    simp [winAllocateMappedMemory]
  · intro mpr errno fb M flags h
    simp [unixProtectMappedMemory, h]
  · intro vp le M flags h
    simp [winProtectMappedMemory, h]
  · intro mun errno M h
    simp [unixReleaseMappedMemory, h]
  · intro vf le M h
    simp [winReleaseMappedMemory, h]

/-- Witness for C7: concrete empty-block no-ops on the Unix backend and a
concrete zero-size allocation. -/
theorem C7_witness :
    unixAllocateMappedMemory 4096 (fun _ _ => none) 12 false 0 none
        ⟨true, true, false⟩ =
      some ⟨MemoryBlock.empty, ECode.success, [], false⟩ ∧
    unixProtectMappedMemory (fun _ _ _ => true) 12 false MemoryBlock.empty
        ⟨true, false, false⟩ =
      some ⟨ECode.success, none, false⟩ ∧
    unixReleaseMappedMemory (fun _ _ => true) 12 MemoryBlock.empty =
      ⟨ECode.success, MemoryBlock.empty, false⟩ :=
  ⟨C7_zero_size_and_empty_noop.1 4096 (fun _ _ => none) 12 false none
      ⟨true, true, false⟩,
   C7_zero_size_and_empty_noop.2.2.1 (fun _ _ _ => true) 12 false
      MemoryBlock.empty ⟨true, false, false⟩ (Or.inl rfl),
   C7_zero_size_and_empty_noop.2.2.2.2.1 (fun _ _ => true) 12
      MemoryBlock.empty (Or.inl rfl)⟩

/-- Claim C10 (confirmed): on both backends a successful release of a
non-empty block resets the caller's block record to the empty block, so a
second release of the same record is a success no-op that makes no OS
call — release is idempotent at the API level. -/
theorem C10_release_resets_and_idempotent :
    (∀ mun errno M, M.address ≠ 0 → M.size ≠ 0 →
       mun M.address M.size = true →
       unixReleaseMappedMemory mun errno M =
         ⟨ECode.success, MemoryBlock.empty, true⟩ ∧
       unixReleaseMappedMemory mun errno
           (unixReleaseMappedMemory mun errno M).block =
         ⟨ECode.success, MemoryBlock.empty, false⟩) ∧
    (∀ vf le M, M.address ≠ 0 → M.size ≠ 0 → vf M.address = true →
       winReleaseMappedMemory vf le M =
         ⟨ECode.success, MemoryBlock.empty, true⟩ ∧
       winReleaseMappedMemory vf le
           (winReleaseMappedMemory vf le M).block =
         ⟨ECode.success, MemoryBlock.empty, false⟩) := by
  constructor
  · intro mun errno M ha hs hm
    have h1 : unixReleaseMappedMemory mun errno M =
        ⟨ECode.success, MemoryBlock.empty, true⟩ := by
      simp [unixReleaseMappedMemory, ha, hs, hm, MemoryBlock.empty]
    refine ⟨h1, ?_⟩
    rw [h1]
    simp [unixReleaseMappedMemory, MemoryBlock.empty]
  · intro vf le M ha hs hv
    have h1 : winReleaseMappedMemory vf le M =
        ⟨ECode.success, MemoryBlock.empty, true⟩ := by
      simp [winReleaseMappedMemory, ha, hs, hv, MemoryBlock.empty]
    refine ⟨h1, ?_⟩
    rw [h1]
    simp [winReleaseMappedMemory, MemoryBlock.empty]

/-- Witness for C10: a concrete non-empty block released twice on the
Unix backend. -/
theorem C10_witness :
    unixReleaseMappedMemory (fun _ _ => true) 12 ⟨8192, 4096⟩ =
      ⟨ECode.success, MemoryBlock.empty, true⟩ ∧
    unixReleaseMappedMemory (fun _ _ => true) 12
        (unixReleaseMappedMemory (fun _ _ => true) 12 ⟨8192, 4096⟩).block =
      ⟨ECode.success, MemoryBlock.empty, false⟩ :=
  C10_release_resets_and_idempotent.1 (fun _ _ => true) 12 ⟨8192, 4096⟩
    (by decide) (by decide) rfl

/-! ## Claim theorems: process execution engine -/

/-- Claim C1 counterexample: on the POSIX fork/exec backend, a spawn of a
program that the caller cannot execute (`canExec = false`) with a
successful fork reports spawn success, produces no "not executable"
message, and an OS child process is created — refuting the claim that on
both backends the engine verifies executability first and fails fast
without ever creating an OS process. -/
theorem C1_counterexample :
    (unixExecuteFork false (some 123)).ok = true ∧
    (unixExecuteFork false (some 123)).processCreated = true ∧
    (unixExecuteFork false (some 123)).msg ≠
      some PMsg.programNotExecutable := by decide

/-- Claim C1 (amended): only the Windows backend verifies executability
before attempting to start the process, failing fast with "program not
executable" before any OS spawn call and with no process created; the
POSIX backend performs no such check on either path — its outcome is
independent of the program's executability, and on the fork path a
successful fork yields spawn success with a live OS child process even
for a non-executable program (whose exec failure surfaces only at wait
through the reserved exit codes). -/
theorem C1_amended :
    (∀ redirectOk createOk memLimit jobOk,
       winExecute false redirectOk createOk memLimit jobOk =
         ⟨false, some PMsg.programNotExecutable, false, false⟩) ∧
    (∀ c c' redirectSetupOk spawnErr,
       unixExecutePosixSpawn c redirectSetupOk spawnErr =
         unixExecutePosixSpawn c' redirectSetupOk spawnErr) ∧
    (∀ c c' forkResult,
       unixExecuteFork c forkResult = unixExecuteFork c' forkResult) ∧
    (∀ c pid, unixExecuteFork c (some pid) = ⟨true, none, true, true⟩) := by
  refine ⟨?_, ?_, ?_, ?_⟩
  · intro redirectOk createOk memLimit jobOk
    rfl
  · intro c c' redirectSetupOk spawnErr
    rfl
  · intro c c' forkResult
    rfl
  · intro c pid
    rfl

/-- Claim C4 (confirmed): on every backend and spawn strategy, when the
stdout and stderr redirects are both present with equal path values, the
stderr stream is bound by duplicating the descriptor already open for
stdout (`adddup2(1,2)` / `dup2(1,2)` / `DuplicateHandle` of the stdout
handle), and no independent open of a path at descriptor 2 occurs. -/
theorem C4_stderr_merged_into_stdout :
    ∀ r p, r.rOut = some p → r.rErr = some p →
      (FdAction.dupTo 1 2 ∈ psFileActions r ∧
        ∀ a ∈ psFileActions r, FdHasIndependentStderrOpen a = false) ∧
      (FdAction.dupTo 1 2 ∈ forkChildActions r ∧
        ∀ a ∈ forkChildActions r, FdHasIndependentStderrOpen a = false) ∧
      (FdAction.dupTo 1 2 ∈ winHandleActions r ∧
        ∀ a ∈ winHandleActions r, FdHasIndependentStderrOpen a = false) := by
  intro r p ho he
  rcases r with ⟨i, o, e⟩
  simp only at ho he
  subst ho
  subst he
  cases i <;>
    simp [psFileActions, forkChildActions, winHandleActions,
      FdHasIndependentStderrOpen]

/-- Witness for C4: a concrete triple redirecting stdout and stderr to
the same file. -/
theorem C4_witness :
    FdAction.dupTo 1 2 ∈ psFileActions ⟨none, some ("log"), some ("log")⟩ ∧
    ∀ a ∈ psFileActions ⟨none, some ("log"), some ("log")⟩,
      FdHasIndependentStderrOpen a = false :=
  (C4_stderr_merged_into_stdout ⟨none, some ("log"), some ("log")⟩
    ("log") rfl rfl).1

/-- Claim C2 counterexample: with posix_spawn available and the program
existing, a child exit code of 127 is remapped to 126 and waited on as
spawn-failed with the "Program could not be executed" reason — not with
the `StrError(ENOENT)` "not found" reason the claim assigns to code
127. -/
theorem C2_counterexample :
    unixWait 0 true true true true
        [WaitpidEv.child (WStatus.exited 127)] =
      some ⟨-1, some PMsg.couldNotBeExecuted, false, false⟩ ∧
    unixWait 0 true true true true
        [WaitpidEv.child (WStatus.exited 127)] ≠
      some ⟨-1, some (PMsg.strError ENOENT), false, false⟩ := by decide

/-- Claim C2 (amended): a child exiting normally with code N in 0-125 is
reported as N (in particular 0 for 0); exit codes 126 and 127 are both
re-classified as spawn-failed (-1), where code 127 yields the
`StrError(ENOENT)` "not found" reason only when posix_spawn is
unavailable or the existence re-check does not confirm the program —
when posix_spawn is available and the program exists, 127 is remapped to
126 and, like a direct 126, yields the "Program could not be executed"
reason; a child terminated by an uncaught signal is reported as -2 with
the signal's name and a core-dump annotation when the OS reports one. -/
theorem C2_amended :
    ∀ (havePS exOk pex reapOk : Bool) (secs : Nat) (rest : List WaitpidEv),
      (∀ code : Nat, code ≤ 125 →
         unixWait secs havePS exOk pex reapOk
             (WaitpidEv.child (WStatus.exited code) :: rest) =
           some ⟨(code : Int), none, false, false⟩) ∧
      (unixWait secs havePS exOk pex reapOk
           (WaitpidEv.child (WStatus.exited 127) :: rest) =
         some ⟨-1,
           some (if havePS && exOk && pex then PMsg.couldNotBeExecuted
             else PMsg.strError ENOENT), false, false⟩) ∧
      (unixWait secs havePS exOk pex reapOk
           (WaitpidEv.child (WStatus.exited 126) :: rest) =
         some ⟨-1, some PMsg.couldNotBeExecuted, false, false⟩) ∧
      (∀ sig core, unixWait secs havePS exOk pex reapOk
           (WaitpidEv.child (WStatus.signaled sig core) :: rest) =
         some ⟨-2, some (PMsg.signalName sig core), false, false⟩) := by
  intro havePS exOk pex reapOk secs rest
  refine ⟨?_, ?_, ?_, ?_⟩
  · intro code hc
    have h1 : code ≠ 127 := by omega
    have h2 : code ≠ 126 := by omega
    simp [unixWait, classifyStatus, classifyExitCode, h1, h2]
  · cases havePS <;> cases exOk <;> cases pex <;>
      simp [unixWait, classifyStatus, classifyExitCode]
  · simp [unixWait, classifyStatus, classifyExitCode]
  · intro sig core
    simp [unixWait, classifyStatus]

/-- Witness for C2: a child exiting with code 7 is reported as 7. -/
theorem C2_amended_witness :
    unixWait 0 true true true true [WaitpidEv.child (WStatus.exited 7)] =
      some ⟨7, none, false, false⟩ :=
  (C2_amended true true true true 0 []).1 7 (by decide)

/-- Claim C3 counterexample: on the Windows backend, a wait whose
deadline elapses and whose forced `TerminateProcess` succeeds returns 1 —
the decoded forced exit code, indistinguishable from a normal exit with
code 1 — not the -2 sentinel the claim requires. -/
theorem C3_counterexample :
    winWaitAux true true true 0 = ⟨1, none, true, true⟩ ∧
    (winWaitAux true true true 0).ret ≠ -2 := by decide

/-- Claim C3 (amended): when the deadline elapses the engine forcibly
kills the child (SIGKILL / TerminateProcess) and then performs one final
blocking wait to reap it on both backends, but only the POSIX backend
returns the -2 timed-out sentinel; the Windows backend returns the
decoded forced exit code 1 (as if the child had exited normally with
code 1), and returns -2 on the timeout path only when the forced
termination itself fails. -/
theorem C3_amended :
    (∀ secs, secs ≠ 0 → ∀ havePS exOk pex reapOk fromAlarm rest,
       unixWait secs havePS exOk pex reapOk
           (WaitpidEv.eintr fromAlarm :: rest) =
         some ⟨-2, some (if reapOk then PMsg.childTimedOut
           else PMsg.childTimedOutWouldNotDie), true, true⟩) ∧
    (∀ st, winWaitAux true true true st = ⟨1, none, true, true⟩) ∧
    (winWaitAux true false true 0 =
      ⟨-2, some PMsg.failedToTerminate, true, false⟩) := by
  refine ⟨?_, ?_, rfl⟩
  · intro secs h havePS exOk pex reapOk fromAlarm rest
    simp [unixWait, h]
  · intro st
    rfl

/-- Witness for C3: a one-second timeout elapsing on the POSIX backend
kills, reaps and returns -2. -/
theorem C3_amended_witness :
    unixWait 1 true true true true [WaitpidEv.eintr true] =
      some ⟨-2, some PMsg.childTimedOut, true, true⟩ := by
  have h := C3_amended.1 1 (by decide) true true true true true []
  simpa using h

/-- Claim C8 counterexample: with a 5-second timeout armed, an `EINTR`
whose interrupting signal is not the engine's alarm is not retried: the
engine kills the child and reports the -2 timeout, even though the next
blocking wait would have reaped a normal exit with code 0. -/
theorem C8_counterexample :
    unixWait 5 true true true true
        [WaitpidEv.eintr false, WaitpidEv.child (WStatus.exited 0)] =
      some ⟨-2, some PMsg.childTimedOut, true, true⟩ ∧
    unixWait 5 true true true true
        [WaitpidEv.eintr false, WaitpidEv.child (WStatus.exited 0)] ≠
      some ⟨0, none, false, false⟩ := by decide

/-- Claim C8 (amended): the blocking wait is retried after an `EINTR`
exactly when no timeout is armed (`secondsToWait = 0`), regardless of
which signal interrupted; when a timeout is armed, every `EINTR` —
whether or not it came from the engine's own alarm — is treated as the
timeout: the child is killed and -2 returned. -/
theorem C8_amended :
    ∀ havePS exOk pex reapOk fromAlarm rest,
      (unixWait 0 havePS exOk pex reapOk
           (WaitpidEv.eintr fromAlarm :: rest) =
         unixWait 0 havePS exOk pex reapOk rest) ∧
      (∀ secs, secs ≠ 0 →
         unixWait secs havePS exOk pex reapOk
             (WaitpidEv.eintr fromAlarm :: rest) =
           some ⟨-2, some (if reapOk then PMsg.childTimedOut
             else PMsg.childTimedOutWouldNotDie), true, true⟩) := by
  intro havePS exOk pex reapOk fromAlarm rest
  constructor
  · simp [unixWait]
  · intro secs h
    simp [unixWait, h]

/-- Witness for C8: with no timeout armed, an `EINTR` is retried and the
subsequent reap of a code-3 exit is reported as 3. -/
theorem C8_amended_witness :
    unixWait 0 true true true true
        [WaitpidEv.eintr true, WaitpidEv.child (WStatus.exited 3)] =
      unixWait 0 true true true true [WaitpidEv.child (WStatus.exited 3)] :=
  (C8_amended true true true true true
    [WaitpidEv.child (WStatus.exited 3)]).1

/-! ## Claim theorem: self-process singleton -/

/-- Claim C9 (confirmed): any positive number of (serialized, atomic)
first accesses to `process::get_self` constructs the singleton exactly
once; every caller observes the identical instance — hence the identical
page-size value — and the cell still holds that instance at the end of
the trace (it is never destroyed: no transition empties the cell, and a
populated cell is passed through unchanged by every further call). -/
theorem C9_singleton_single_init :
    ∀ osPageSize n,
      runGetSelf osPageSize (n + 1) none =
        (List.replicate (n + 1) ⟨osPageSize⟩, some ⟨osPageSize⟩, 1) ∧
      ∀ sp, getSelf osPageSize (some sp) = (sp, some sp, false) := by
  intro os n
  refine ⟨?_, fun sp => rfl⟩
  simp [runGetSelf, getSelf, runGetSelf_some, List.replicate_succ]
